import Mathlib

/- Shallow embedding of the model lifecycle manager
   (src/plugins/llm-service/src/model_manager): registry.py, downloader.py,
   loader.py and manager.py.  The asynchronous Python code is modelled as
   sequential state-passing functions; `datetime.utcnow()` timestamps are
   modelled by a monotone `clock : Nat` counter carried in each component
   state; Python exceptions are modelled with `Except String`; external
   effects (the actual HuggingFace transfer, the torch weight load, the
   filesystem) are modelled by boolean success oracles passed as arguments.
   `asyncio.Lock` is not reentrant: a call that re-acquires a lock its own
   task already holds suspends forever; such calls are modelled by a third
   `hang` outcome, with the state as it is at the moment of the deadlock. -/

namespace ModelManagerSpec

/- Python dicts preserve insertion order and update keys in place; we model
   them as association lists with in-place replacement. -/

def mapGet {α : Type} : List (String × α) → String → Option α
  | [], _ => none
  | p :: rest, k => if p.1 = k then some p.2 else mapGet rest k

def mapInsert {α : Type} : List (String × α) → String → α → List (String × α)
  | [], k, v => [(k, v)]
  | p :: rest, k, v => if p.1 = k then (k, v) :: rest else p :: mapInsert rest k v

def mapRemove {α : Type} (m : List (String × α)) (k : String) : List (String × α) :=
  m.filter (fun p => p.1 ≠ k)

def mapMem {α : Type} (m : List (String × α)) (k : String) : Bool :=
  m.any (fun p => p.1 = k)

/- ===================== registry.py ===================== -/

/-- Embeds `ModelStatus` from registry.py. -/
inductive ModelStatus
  | downloading
  | ready
  | loading
  | loaded
  | error
  | deleted
  deriving DecidableEq

/-- Embeds the `.value` string of each `ModelStatus` enum member. -/
def ModelStatus.value : ModelStatus → String
  | .downloading => "downloading"
  | .ready => "ready"
  | .loading => "loading"
  | .loaded => "loaded"
  | .error => "error"
  | .deleted => "deleted"

/-- Embeds the `ModelStatus(string)` enum constructor, which raises on an
unknown value; modelled as `Option`. -/
def ModelStatus.ofString : String → Option ModelStatus
  | "downloading" => some .downloading
  | "ready" => some .ready
  | "loading" => some .loading
  | "loaded" => some .loaded
  | "error" => some .error
  | "deleted" => some .deleted
  | _ => none

/-- Embeds the `LocalModelInfo` dataclass of registry.py.  Timestamps are
clock values; the free-form `config`/`metadata` dicts are string maps. -/
structure LocalModelInfo where
  model_id : String
  local_path : String
  status : ModelStatus := ModelStatus.ready
  size_bytes : Nat := 0
  downloaded_at : Option Nat := none
  last_used : Option Nat := none
  revision : String := "main"
  model_type : String := "unknown"
  quantization : Option String := none
  config : List (String × String) := []
  metadata : List (String × String) := []
  error_message : Option String := none
  deriving DecidableEq

/-- The dictionary produced by `LocalModelInfo.to_dict`: the same fields with
`status` replaced by its string value. -/
structure LocalModelInfoDict where
  model_id : String
  local_path : String
  status : String
  size_bytes : Nat
  downloaded_at : Option Nat
  last_used : Option Nat
  revision : String
  model_type : String
  quantization : Option String
  config : List (String × String)
  metadata : List (String × String)
  error_message : Option String
  deriving DecidableEq

/-- Embeds `LocalModelInfo.to_dict`. -/
def LocalModelInfo.to_dict (info : LocalModelInfo) : LocalModelInfoDict :=
  { model_id := info.model_id
    local_path := info.local_path
    status := info.status.value
    size_bytes := info.size_bytes
    downloaded_at := info.downloaded_at
    last_used := info.last_used
    revision := info.revision
    model_type := info.model_type
    quantization := info.quantization
    config := info.config
    metadata := info.metadata
    error_message := info.error_message }

/-- Embeds `LocalModelInfo.from_dict`; `ModelStatus(...)` raising on an
unknown status string is modelled as `none`. -/
def LocalModelInfo.from_dict (data : LocalModelInfoDict) : Option LocalModelInfo :=
  match ModelStatus.ofString data.status with
  | none => none
  | some st =>
    some
      { model_id := data.model_id
        local_path := data.local_path
        status := st
        size_bytes := data.size_bytes
        downloaded_at := data.downloaded_at
        last_used := data.last_used
        revision := data.revision
        model_type := data.model_type
        quantization := data.quantization
        config := data.config
        metadata := data.metadata
        error_message := data.error_message }

/-- The on-disk snapshot written by `_save_registry`:
`{"version": "1.0", "updated_at": ..., "models": {id: to_dict}}`. -/
structure RegistryFile where
  version : String
  updated_at : Nat
  models : List (String × LocalModelInfoDict)
  deriving DecidableEq

/-- State of a `ModelRegistry` instance: the in-memory map, the contents of
the registry file (`none` = file absent), whether the durable write
succeeds (the I/O oracle), and the clock. -/
structure RegistryState where
  models : List (String × LocalModelInfo)
  disk : Option RegistryFile
  persist_ok : Bool
  clock : Nat
  deriving DecidableEq

/-- The snapshot dictionary built inside `_save_registry`. -/
def ModelRegistry.registrySnapshot (s : RegistryState) : RegistryFile :=
  { version := "1.0"
    updated_at := s.clock
    models := s.models.map (fun p => (p.1, p.2.to_dict)) }

/-- The `open`/`json.dump` call inside `_save_registry`, which raises when
the write cannot be completed. -/
def ModelRegistry.diskWrite (s : RegistryState) : Except String RegistryFile :=
  if s.persist_ok then Except.ok (ModelRegistry.registrySnapshot s)
  else Except.error "IOError: write failed"

/-- Embeds `ModelRegistry._save_registry`: the write is attempted inside a
try/except that catches every exception and only logs it, so the function
always returns normally; on failure the file is left as it was. -/
def ModelRegistry.save_registry (s : RegistryState) : RegistryState :=
  match ModelRegistry.diskWrite s with
  | Except.ok f => { s with disk := some f, clock := s.clock + 1 }
  | Except.error _ => s

/-- Parsing of the `models` dict in `_load_registry`; any `from_dict`
failure aborts the whole load (the surrounding try/except). -/
def parseModels : List (String × LocalModelInfoDict) →
    Option (List (String × LocalModelInfo))
  | [] => some []
  | (k, d) :: rest =>
    match LocalModelInfo.from_dict d, parseModels rest with
    | some info, some rest1 => some ((k, info) :: rest1)
    | _, _ => none

/-- Embeds `ModelRegistry._load_registry`: a missing file or a file that
fails to parse yields an empty map. -/
def ModelRegistry.load_registry (disk : Option RegistryFile) :
    List (String × LocalModelInfo) :=
  match disk with
  | none => []
  | some f => (parseModels f.models).getD []

/-- Embeds `ModelRegistry.register`: upsert into the in-memory map, then
`_save_registry`.  The code has no raise path here (`_save_registry`
swallows write failures), so the result type carries no error. -/
def ModelRegistry.register (s : RegistryState) (info : LocalModelInfo) :
    RegistryState :=
  ModelRegistry.save_registry
    { s with models := mapInsert s.models info.model_id info }

/-- Embeds `ModelRegistry.update_status`: no-op when the id is unknown;
always overwrites `error_message`; stamps `last_used` when transitioning to
LOADED; persists via `_save_registry`. -/
def ModelRegistry.update_status (s : RegistryState) (model_id : String)
    (status : ModelStatus) (error_message : Option String) : RegistryState :=
  match mapGet s.models model_id with
  | none => s
  | some info =>
    let info1 := { info with status := status, error_message := error_message }
    let info2 :=
      if status = ModelStatus.loaded then { info1 with last_used := some s.clock }
      else info1
    ModelRegistry.save_registry { s with models := mapInsert s.models model_id info2 }

/-- Embeds `ModelRegistry.get`. -/
def ModelRegistry.get (s : RegistryState) (model_id : String) :
    Option LocalModelInfo :=
  mapGet s.models model_id

/-- Embeds `ModelRegistry.remove`. -/
def ModelRegistry.remove (s : RegistryState) (model_id : String) :
    Bool × RegistryState :=
  if mapMem s.models model_id then
    (true, ModelRegistry.save_registry { s with models := mapRemove s.models model_id })
  else (false, s)

/- ===================== loader.py ===================== -/

/-- Embeds the `LoadedModel` wrapper of loader.py; the model/tokenizer/config
handles are opaque and not represented. -/
structure LoadedModel where
  model_id : String
  device : String
  dtype : String
  loaded_at : Nat
  last_used : Nat
  inference_count : Nat
  deriving DecidableEq

/-- State of a `ModelLoader` instance: the `_loaded_models` dict in insertion
order, the capacity bound, the detected device and the clock. -/
structure LoaderState where
  max_loaded_models : Nat
  available_device : String
  loaded_models : List LoadedModel
  clock : Nat
  deriving DecidableEq

/-- Embeds `ModelLoader._get_device`. -/
def ModelLoader.get_device (s : LoaderState) (requested_device : String) : String :=
  if requested_device = "auto" then s.available_device else requested_device

/-- Embeds `ModelLoader._get_dtype` (torch dtypes represented by name). -/
def ModelLoader.get_dtype (requested_dtype : String) (device : String) : String :=
  if requested_dtype = "auto" then
    if device = "cuda" then "float16" else "float32"
  else if requested_dtype = "float32" then "float32"
  else if requested_dtype = "float16" then "float16"
  else if requested_dtype = "bfloat16" then "bfloat16"
  else "float32"

/-- Embeds the `min(self._loaded_models.values(), key=lambda m: m.last_used)`
call of `_evict_if_needed`: Python `min` returns the first minimal element
in iteration (= insertion) order, hence the strict comparison. -/
def lruMin : List LoadedModel → Option LoadedModel
  | [] => none
  | m :: ms =>
    some (ms.foldl (fun acc x => if x.last_used < acc.last_used then x else acc) m)

/-- Embeds `ModelLoader.unload` as invoked standalone (by the Manager, with
the loader lock free to take, so it completes; memory release is not
represented).  The call from `_evict_if_needed` never gets past the lock
acquisition and is modelled there instead. -/
def ModelLoader.unload (s : LoaderState) (model_id : String) : Bool × LoaderState :=
  if s.loaded_models.any (fun m => m.model_id = model_id) then
    (true,
     { s with loaded_models := s.loaded_models.filter (fun m => m.model_id ≠ model_id) })
  else (false, s)

/-- Outcome of one Python-level call: a normal return, a raised exception,
or a call that never returns because its task deadlocked re-acquiring a
non-reentrant lock it already holds. -/
inductive Outcome (α : Type)
  | ok (a : α)
  | error (e : String)
  | hang
  deriving DecidableEq

/-- Embeds `ModelLoader._evict_if_needed` as executed from its only call
site: inside `load`, which already holds `self._lock` (loader.py:149-156).
When the resident count is below capacity the `while` body never runs and
the call returns at once.  Otherwise the loop selects the LRU entry and
then does `await self.unload(...)` (loader.py:284); `unload` begins with
`async with self._lock:` (loader.py:255) and `asyncio.Lock` is not
reentrant, so the task deadlocks before mutating anything -- a needed
eviction never completes.  With the cache empty and a capacity of zero the
loop condition still holds and `min` over the empty dict raises
ValueError. -/
def ModelLoader.evict_if_needed (s : LoaderState) : Outcome Unit × LoaderState :=
  if s.loaded_models.length ≥ s.max_loaded_models then
    match lruMin s.loaded_models with
    | none => (Outcome.error "min() arg is an empty sequence", s)
    | some _ => (Outcome.hang, s)
  else (Outcome.ok (), s)

/-- Lookup in `_loaded_models` (the `model_id in self._loaded_models` checks). -/
def ModelLoader.find (s : LoaderState) (model_id : String) : Option LoadedModel :=
  s.loaded_models.find? (fun m => m.model_id = model_id)

/-- Embeds `ModelLoader.load`.  `loadOk` is the oracle for whether the
`from_pretrained` weight load succeeds.  Mirrors the source order: the
already-loaded check and the capacity check happen first under the lock;
a needed eviction deadlocks there (hang) and the weight load is never
reached; an eviction-stage exception propagates; otherwise the weight load
runs and on success the entry is inserted. -/
def ModelLoader.load (s : LoaderState) (loadOk : Bool) (model_id : String)
    (device : String) (dtype : String) : Outcome LoadedModel × LoaderState :=
  match ModelLoader.find s model_id with
  | some m => (Outcome.ok m, s)
  | none =>
    match ModelLoader.evict_if_needed s with
    | (Outcome.ok _, s1) =>
      if loadOk then
        let target_device := ModelLoader.get_device s1 device
        let target_dtype := ModelLoader.get_dtype dtype target_device
        let loaded : LoadedModel :=
          { model_id := model_id
            device := target_device
            dtype := target_dtype
            loaded_at := s1.clock
            last_used := s1.clock
            inference_count := 0 }
        (Outcome.ok loaded,
         { s1 with
            loaded_models := s1.loaded_models ++ [loaded]
            clock := s1.clock + 1 })
      else (Outcome.error "failed to load model", s1)
    | (Outcome.error e, s1) => (Outcome.error e, s1)
    | (Outcome.hang, s1) => (Outcome.hang, s1)

/-- Embeds `ModelLoader.is_loaded`. -/
def ModelLoader.is_loaded (s : LoaderState) (model_id : String) : Bool :=
  s.loaded_models.any (fun m => m.model_id = model_id)

/-- Embeds `LoadedModel.update_usage`. -/
def LoadedModel.update_usage (clock : Nat) (m : LoadedModel) : LoadedModel :=
  { m with last_used := clock, inference_count := m.inference_count + 1 }

/-- Embeds `ModelLoader.generate`: raises when the model is not resident,
otherwise updates usage stats before inference (the generated text itself
is opaque). -/
def ModelLoader.generate (s : LoaderState) (model_id : String) :
    (Except String String) × LoaderState :=
  match ModelLoader.find s model_id with
  | none => (Except.error ("Model not loaded: " ++ model_id), s)
  | some _ =>
    (Except.ok "",
     { s with
        loaded_models := s.loaded_models.map
          (fun m => if m.model_id = model_id then LoadedModel.update_usage s.clock m else m)
        clock := s.clock + 1 })

/-- A sequential call against the Loader, for stating trace properties. -/
inductive LoaderOp
  | load (ok : Bool) (model_id : String)
  | unload (model_id : String)
  | generate (model_id : String)
  deriving DecidableEq

/-- State effect of one Loader call (results and errors discarded). -/
def loaderStep (s : LoaderState) : LoaderOp → LoaderState
  | LoaderOp.load ok model_id => (ModelLoader.load s ok model_id "auto" "auto").2
  | LoaderOp.unload model_id => (ModelLoader.unload s model_id).2
  | LoaderOp.generate model_id => (ModelLoader.generate s model_id).2

/-- Runs a sequence of Loader calls. -/
def runLoaderOps (s : LoaderState) : List LoaderOp → LoaderState
  | [] => s
  | op :: ops => runLoaderOps (loaderStep s op) ops

/-- A freshly constructed `ModelLoader` with the given capacity (no CUDA). -/
def initLoader (max_loaded_models : Nat) : LoaderState :=
  { max_loaded_models := max_loaded_models
    available_device := "cpu"
    loaded_models := []
    clock := 0 }

/- ===================== downloader.py ===================== -/

/-- Embeds `DownloadStatus` from downloader.py. -/
inductive DownloadStatus
  | pending
  | downloading
  | completed
  | failed
  | cancelled
  deriving DecidableEq

/-- Embeds the `DownloadProgress` dataclass (float percent as Nat). -/
structure DownloadProgress where
  model_id : String
  status : DownloadStatus
  progress_percent : Nat := 0
  downloaded_bytes : Nat := 0
  total_bytes : Nat := 0
  error : Option String := none
  started_at : Option Nat := none
  completed_at : Option Nat := none
  deriving DecidableEq

/-- Embeds the `DownloadTask` dataclass (runtime state fields included). -/
structure DownloadTask where
  model_id : String
  revision : String := "main"
  force_download : Bool := false
  status : DownloadStatus := DownloadStatus.pending
  progress : DownloadProgress
  cancel_event : Bool := false
  deriving DecidableEq

/-- A fresh `DownloadTask` (its `__post_init__` copies the model id into the
progress record). -/
def mkDownloadTask (model_id : String) : DownloadTask :=
  { model_id := model_id
    progress := { model_id := model_id, status := DownloadStatus.pending } }

/-- State of a `ModelDownloader` instance: the `_active_tasks` dict and the
clock. -/
structure DownloaderState where
  active_tasks : List (String × DownloadTask)
  clock : Nat
  deriving DecidableEq

/-- The first half of `ModelDownloader.download`, up to the suspension point
where `snapshot_download` runs in a thread: the task is put into
`_active_tasks` and marked DOWNLOADING. -/
def ModelDownloader.download_start (s : DownloaderState) (task : DownloadTask) :
    DownloaderState :=
  let task1 :=
    { task with
        status := DownloadStatus.downloading
        progress :=
          { task.progress with
              status := DownloadStatus.downloading
              started_at := some s.clock } }
  { s with
      active_tasks := mapInsert s.active_tasks task.model_id task1
      clock := s.clock + 1 }

/-- The second half of `ModelDownloader.download`, after `snapshot_download`
returns (`ok` = it did not raise): the task status is set to COMPLETED or
FAILED unconditionally — `cancel_event` is never consulted — and the task
is popped from `_active_tasks` in the `finally` block.  Returns the task in
its final state alongside the new downloader state. -/
def ModelDownloader.download_finish (s : DownloaderState) (model_id : String)
    (ok : Bool) (total_size : Nat) : Option DownloadTask × DownloaderState :=
  match mapGet s.active_tasks model_id with
  | none => (none, s)
  | some task =>
    let task1 :=
      if ok then
        { task with
            status := DownloadStatus.completed
            progress :=
              { task.progress with
                  status := DownloadStatus.completed
                  progress_percent := 100
                  downloaded_bytes := total_size
                  total_bytes := total_size
                  completed_at := some s.clock } }
      else
        { task with
            status := DownloadStatus.failed
            progress :=
              { task.progress with
                  status := DownloadStatus.failed
                  error := some "download error" } }
    (some task1,
     { s with active_tasks := mapRemove s.active_tasks model_id, clock := s.clock + 1 })

/-- Embeds `ModelDownloader.cancel`: when a task for the id is active, its
cancel event is set and its status forced to CANCELLED. -/
def ModelDownloader.cancel (s : DownloaderState) (model_id : String) :
    Bool × DownloaderState :=
  match mapGet s.active_tasks model_id with
  | none => (false, s)
  | some task =>
    let task1 :=
      { task with
          cancel_event := true
          status := DownloadStatus.cancelled
          progress := { task.progress with status := DownloadStatus.cancelled } }
    (true, { s with active_tasks := mapInsert s.active_tasks model_id task1 })

/-- Embeds `ModelDownloader.delete_model`: removes the model directory when
present (raising on a filesystem error, oracle `fsOk`), returns whether
anything existed. -/
def ModelDownloader.delete_model (files : List String) (fsOk : Bool)
    (model_id : String) : (Except String Bool) × List String :=
  if files.contains model_id then
    if fsOk then (Except.ok true, files.filter (fun f => f ≠ model_id))
    else (Except.error "failed to delete model", files)
  else (Except.ok false, files)

/- ===================== manager.py ===================== -/

/-- State of a `ModelManager`: its registry and loader, the set of model ids
whose files exist on disk, and a count of transfers performed by the
downloader (each call into `ModelDownloader.download`). -/
structure ManagerState where
  registry : RegistryState
  loader : LoaderState
  files : List String
  transfers : Nat
  deriving DecidableEq

/-- The download body of `ModelManager.download_model` after the
short-circuit: register a DOWNLOADING placeholder, run the transfer
(`dlOk` oracle, `dlSize` the resulting size on disk; remote metadata is
abstracted, leaving `model_type` at its "unknown" fallback), then register
the READY record, or mark ERROR and re-raise on failure. -/
def ModelManager.download_run (s : ManagerState) (dlOk : Bool) (dlSize : Nat)
    (model_id : String) (revision : String) (quantization : Option String) :
    (Except String LocalModelInfo) × ManagerState :=
  let placeholder : LocalModelInfo :=
    { model_id := model_id
      local_path := ""
      status := ModelStatus.downloading
      revision := revision
      quantization := quantization }
  let s1 :=
    { s with
        registry := ModelRegistry.register s.registry placeholder
        transfers := s.transfers + 1 }
  if dlOk then
    let info : LocalModelInfo :=
      { model_id := model_id
        local_path := "models/" ++ model_id
        status := ModelStatus.ready
        size_bytes := dlSize
        downloaded_at := some s1.registry.clock
        revision := revision
        quantization := quantization }
    (Except.ok info,
     { s1 with
        registry := ModelRegistry.register s1.registry info
        files := if s1.files.contains model_id then s1.files else s1.files ++ [model_id] })
  else
    (Except.error "download error",
     { s1 with
        registry :=
          ModelRegistry.update_status s1.registry model_id ModelStatus.error
            (some "download error") })

/-- Embeds `ModelManager.download_model`: short-circuits when the registry
already shows READY and `force` is not set. -/
def ModelManager.download_model (s : ManagerState) (dlOk : Bool) (dlSize : Nat)
    (model_id : String) (revision : String) (quantization : Option String)
    (force : Bool) : (Except String LocalModelInfo) × ManagerState :=
  match ModelRegistry.get s.registry model_id with
  | some existing =>
    if existing.status = ModelStatus.ready ∧ force = false then (Except.ok existing, s)
    else ModelManager.download_run s dlOk dlSize model_id revision quantization
  | none => ModelManager.download_run s dlOk dlSize model_id revision quantization

/-- The body of `ModelManager.load_model` from the LOADING update onward:
set LOADING, delegate to `ModelLoader.load`, then set LOADED on success or
revert to READY (not ERROR) on failure and re-raise.  When the loader call
deadlocks (an eviction was needed), no further registry update ever
happens: the record is left showing LOADING forever. -/
def ModelManager.load_model_tail (s1 : ManagerState) (loadOk : Bool)
    (model_id : String) (device : String) (dtype : String) :
    Outcome LoadedModel × ManagerState :=
  let s2 :=
    { s1 with
        registry :=
          ModelRegistry.update_status s1.registry model_id ModelStatus.loading none }
  match ModelLoader.load s2.loader loadOk model_id device dtype with
  | (Outcome.ok loaded, l1) =>
    (Outcome.ok loaded,
     { s2 with
         loader := l1
         registry :=
           ModelRegistry.update_status s2.registry model_id ModelStatus.loaded none })
  | (Outcome.error e, l1) =>
    (Outcome.error e,
     { s2 with
         loader := l1
         registry :=
           ModelRegistry.update_status s2.registry model_id ModelStatus.ready (some e) })
  | (Outcome.hang, l1) => (Outcome.hang, { s2 with loader := l1 })

/-- Embeds `ModelManager.load_model`: auto-download when no READY/LOADED
record exists, then continue with `load_model_tail`. -/
def ModelManager.load_model (s : ManagerState) (dlOk : Bool) (dlSize : Nat)
    (loadOk : Bool) (model_id : String) (device : String) (dtype : String) :
    Outcome LoadedModel × ManagerState :=
  let step1 : (Except String LocalModelInfo) × ManagerState :=
    match ModelRegistry.get s.registry model_id with
    | some local_model =>
      if local_model.status = ModelStatus.ready ∨ local_model.status = ModelStatus.loaded
      then (Except.ok local_model, s)
      else ModelManager.download_model s dlOk dlSize model_id "main" none false
    | none => ModelManager.download_model s dlOk dlSize model_id "main" none false
  match step1 with
  | (Except.error e, s1) => (Outcome.error e, s1)
  | (Except.ok _, s1) => ModelManager.load_model_tail s1 loadOk model_id device dtype

/-- Embeds `ModelManager.unload_model`: registry status reverts to READY only
when the loader actually unloaded something. -/
def ModelManager.unload_model (s : ManagerState) (model_id : String) :
    Bool × ManagerState :=
  match ModelLoader.unload s.loader model_id with
  | (true, l1) =>
    (true,
     { s with
         loader := l1
         registry := ModelRegistry.update_status s.registry model_id ModelStatus.ready none })
  | (false, l1) => (false, { s with loader := l1 })

/-- Embeds `ModelManager.delete_model`: unload if resident (directly via the
loader, without a registry update), optionally delete files via the
downloader (its boolean result is discarded), then return the result of the
registry removal alone. -/
def ModelManager.delete_model (s : ManagerState) (fsOk : Bool) (model_id : String)
    (delete_files : Bool) : (Except String Bool) × ManagerState :=
  let s1 :=
    if ModelLoader.is_loaded s.loader model_id then
      { s with loader := (ModelLoader.unload s.loader model_id).2 }
    else s
  let step2 : (Except String Unit) × ManagerState :=
    if delete_files then
      match ModelDownloader.delete_model s1.files fsOk model_id with
      | (Except.ok _, files1) => (Except.ok (), { s1 with files := files1 })
      | (Except.error e, files1) => (Except.error e, { s1 with files := files1 })
    else (Except.ok (), s1)
  match step2 with
  | (Except.error e, s2) => (Except.error e, s2)
  | (Except.ok _, s2) =>
    match ModelRegistry.remove s2.registry model_id with
    | (removed, reg1) => (Except.ok removed, { s2 with registry := reg1 })

/-- Embeds `ModelManager.is_model_loaded`. -/
def ModelManager.is_model_loaded (s : ManagerState) (model_id : String) : Bool :=
  ModelLoader.is_loaded s.loader model_id

/-- One user-facing Manager call, for stating properties over the points
between operations. -/
inductive ManagerOp
  | download (dlOk : Bool) (dlSize : Nat) (model_id revision : String)
      (quantization : Option String) (force : Bool)
  | load (dlOk : Bool) (dlSize : Nat) (loadOk : Bool) (model_id device dtype : String)
  | unload (model_id : String)
  | delete (model_id : String) (delete_files : Bool)
  deriving DecidableEq

/-- State effect of one Manager call (results and errors discarded; file
deletion is taken to succeed). -/
def managerStep (s : ManagerState) : ManagerOp → ManagerState
  | ManagerOp.download dlOk dlSize model_id revision quantization force =>
      (ModelManager.download_model s dlOk dlSize model_id revision quantization force).2
  | ManagerOp.load dlOk dlSize loadOk model_id device dtype =>
      (ModelManager.load_model s dlOk dlSize loadOk model_id device dtype).2
  | ManagerOp.unload model_id => (ModelManager.unload_model s model_id).2
  | ManagerOp.delete model_id delete_files =>
      (ModelManager.delete_model s true model_id delete_files).2

/-- The cross-component invariant of the spec: a model id has Registry
status LOADED exactly when it is resident in the Loader. -/
def statusConsistent (s : ManagerState) : Prop :=
  ∀ model_id : String,
    ((ModelRegistry.get s.registry model_id).map LocalModelInfo.status =
        some ModelStatus.loaded)
    ↔ ModelLoader.is_loaded s.loader model_id = true

/-- Whether a Manager call avoids the one consistency-breaking shape: a
`download_model` aimed at an id that is currently resident in the Loader
(such a call re-registers the record as DOWNLOADING and then READY or ERROR
while the model stays resident). -/
def opSafe (s : ManagerState) : ManagerOp → Bool
  | ManagerOp.download _ _ model_id _ _ _ => ! ModelLoader.is_loaded s.loader model_id
  | _ => true

/-- The `LoadedModel` record that `ModelLoader.load` constructs before the
index insert (named here for use in proofs; definitionally equal to the
record built inside `load`). -/
def loadedEntry (s1 : LoaderState) (model_id device dtype : String) : LoadedModel :=
  { model_id := model_id
    device := ModelLoader.get_device s1 device
    dtype := ModelLoader.get_dtype dtype (ModelLoader.get_device s1 device)
    loaded_at := s1.clock
    last_used := s1.clock
    inference_count := 0 }

/- ===================== concrete scenario states ===================== -/

/-- A READY registry record for a model id. -/
def readyRecord (model_id : String) : LocalModelInfo :=
  { model_id := model_id
    local_path := "models/" ++ model_id
    status := ModelStatus.ready }

/-- A registry whose durable writes fail. -/
def c2Start : RegistryState :=
  { models := [], disk := none, persist_ok := false, clock := 0 }

/-- A registry with two records of differing field values. -/
def c9Sample : RegistryState :=
  { models :=
      [("A", readyRecord "A"),
       ("B", { readyRecord "B" with
                status := ModelStatus.loaded, size_bytes := 7, last_used := some 3 })]
    disk := none
    persist_ok := true
    clock := 5 }

/-- A resident entry with a fixed `last_used` timestamp, for tie scenarios. -/
def tieEntry (model_id : String) : LoadedModel :=
  { model_id := model_id
    device := "cpu"
    dtype := "float32"
    loaded_at := 5
    last_used := 5
    inference_count := 0 }

/-- A loader over capacity by more than one entry (as after a capacity
reduction), so a single eviction step is insufficient. -/
def c6Overfull : LoaderState :=
  { max_loaded_models := 1
    available_device := "cpu"
    loaded_models := [tieEntry "X", tieEntry "Y", tieEntry "Z"]
    clock := 6 }

/-- The loader state after loading A then B at capacity 2 (both loads run
below capacity, so neither needs an eviction and both complete). -/
def c7AB : LoaderState :=
  (ModelLoader.load
    (ModelLoader.load (initLoader 2) true "A" "auto" "auto").2
    true "B" "auto" "auto").2

/-- A fresh manager with loader capacity `maxLoaded` and an empty registry. -/
def initManager (maxLoaded : Nat) : ManagerState :=
  { registry := { models := [], disk := none, persist_ok := true, clock := 0 }
    loader := initLoader maxLoaded
    files := []
    transfers := 0 }

/-- `downloadModel("M")` on a fresh manager with capacity 1: M becomes
READY. -/
def c1s1 : ManagerState :=
  (ModelManager.download_model (initManager 1) true 10 "M" "main" none false).2

/-- Then `loadModel("M")`: the loader is empty (below capacity), so the load
completes and M is LOADED and resident. -/
def c1s2 : ManagerState :=
  (ModelManager.load_model c1s1 true 10 true "M" "auto" "auto").2

/-- Then `downloadModel("M")` again without force: the record shows LOADED,
not READY, so the short-circuit does not fire and the model is re-registered
DOWNLOADING and then READY -- while it stays resident in the Loader. -/
def c1s3 : ManagerState :=
  (ModelManager.download_model c1s2 true 10 "M" "main" none false).2

/-- A hand-written consistent manager state: M is LOADED and resident. -/
def w1Entry : LoadedModel :=
  { model_id := "M"
    device := "cpu"
    dtype := "float32"
    loaded_at := 0
    last_used := 0
    inference_count := 0 }

/-- See `w1Entry`: the surrounding manager state. -/
def w1State : ManagerState :=
  { registry :=
      { models := [("M", { readyRecord "M" with status := ModelStatus.loaded })]
        disk := none
        persist_ok := true
        clock := 1 }
    loader :=
      { max_loaded_models := 1
        available_device := "cpu"
        loaded_models := [w1Entry]
        clock := 1 }
    files := ["M"]
    transfers := 1 }

/-- A download of demo/model-7b that has started (transfer in flight). -/
def c3s1 : DownloaderState :=
  ModelDownloader.download_start { active_tasks := [], clock := 0 }
    (mkDownloadTask "demo/model-7b")

/-- `cancel("demo/model-7b")` issued while the transfer is in flight. -/
def c3Cancel : Bool × DownloaderState := ModelDownloader.cancel c3s1 "demo/model-7b"

/-- The in-flight transfer then completes successfully. -/
def c3Finish : Option DownloadTask × DownloaderState :=
  ModelDownloader.download_finish c3Cancel.2 "demo/model-7b" true 1000

/-- A manager with one READY record, for the failed-load scenario. -/
def c4Start : ManagerState :=
  { registry :=
      { models := [("X", readyRecord "X")], disk := none, persist_ok := true, clock := 0 }
    loader := initLoader 2
    files := ["X"]
    transfers := 0 }

/-- A manager that already holds a READY record for M after one transfer. -/
def c8Start : ManagerState :=
  { registry :=
      { models := [("M", readyRecord "M")], disk := none, persist_ok := true, clock := 0 }
    loader := initLoader 2
    files := ["M"]
    transfers := 1 }

/-- A manager with files for F on disk but no registry record. -/
def c10NoRecord : ManagerState :=
  { registry := { models := [], disk := none, persist_ok := true, clock := 0 }
    loader := initLoader 2
    files := ["F"]
    transfers := 0 }

/-- A manager with a registry record for G but no files on disk. -/
def c10WithRecord : ManagerState :=
  { registry :=
      { models := [("G", readyRecord "G")], disk := none, persist_ok := true, clock := 0 }
    loader := initLoader 2
    files := []
    transfers := 0 }

/- ===================== helper lemmas ===================== -/

theorem mapGet_mapInsert_self {α : Type} (m : List (String × α)) (k : String) (v : α) :
    mapGet (mapInsert m k v) k = some v := by
  induction m with
  | nil => simp [mapInsert, mapGet]
  | cons p rest ih =>
    by_cases h : p.1 = k
    · simp [mapInsert, mapGet, h]
    · simp [mapInsert, mapGet, h, ih]

theorem mapGet_mapInsert_ne {α : Type} (m : List (String × α)) (k x : String) (v : α)
    (hx : x ≠ k) : mapGet (mapInsert m k v) x = mapGet m x := by
  induction m with
  | nil => simp [mapInsert, mapGet, Ne.symm hx]
  | cons p rest ih =>
    by_cases hp : p.1 = k
    · simp [mapInsert, mapGet, hp, Ne.symm hx]
    · simp [mapInsert, mapGet, hp, ih]

theorem mapMem_false_of_get_none {α : Type} (m : List (String × α)) (k : String)
    (h : mapGet m k = none) : mapMem m k = false := by
  induction m with
  | nil => rfl
  | cons p rest ih =>
    by_cases hp : p.1 = k
    · simp [mapGet, hp] at h
    · simp [mapGet, hp] at h
      simp [mapMem, List.any, hp]
      have := ih h
      simp [mapMem] at this
      exact this

theorem mapMem_true_of_get_some {α : Type} (m : List (String × α)) (k : String)
    (v : α) (h : mapGet m k = some v) : mapMem m k = true := by
  induction m with
  | nil => simp [mapGet] at h
  | cons p rest ih =>
    by_cases hp : p.1 = k
    · simp [mapMem, List.any, hp]
    · simp [mapGet, hp] at h
      simp [mapMem, List.any]
      have := ih h
      simp [mapMem] at this
      right
      exact this

theorem mapGet_none_of_mapMem_false {α : Type} (m : List (String × α)) (k : String)
    (h : mapMem m k = false) : mapGet m k = none := by
  cases hg : mapGet m k with
  | none => rfl
  | some v => rw [mapMem_true_of_get_some m k v hg] at h; cases h

theorem mapGet_mapRemove_self {α : Type} (m : List (String × α)) (k : String) :
    mapGet (mapRemove m k) k = none := by
  induction m with
  | nil => rfl
  | cons p rest ih =>
    by_cases hp : p.1 = k
    · simpa [mapRemove, List.filter, hp] using ih
    · simpa [mapRemove, List.filter, mapGet, hp] using ih

theorem mapGet_mapRemove_ne {α : Type} (m : List (String × α)) (k x : String)
    (hx : x ≠ k) : mapGet (mapRemove m k) x = mapGet m x := by
  induction m with
  | nil => rfl
  | cons p rest ih =>
    have hkx : ¬ k = x := Ne.symm hx
    by_cases hp : p.1 = k
    · simpa [mapRemove, List.filter, mapGet, hp, hkx, hx] using ih
    · by_cases hpx : p.1 = x
      · simp [mapRemove, List.filter, mapGet, hp, hpx, hkx, hx]
      · simpa [mapRemove, List.filter, mapGet, hp, hpx, hkx, hx] using ih

theorem models_save_registry (s : RegistryState) :
    (ModelRegistry.save_registry s).models = s.models := by
  unfold ModelRegistry.save_registry
  cases h : ModelRegistry.diskWrite s <;> rfl

theorem get_register_self (s : RegistryState) (info : LocalModelInfo) :
    ModelRegistry.get (ModelRegistry.register s info) info.model_id = some info := by
  unfold ModelRegistry.register ModelRegistry.get
  rw [models_save_registry]
  exact mapGet_mapInsert_self _ _ _

theorem get_register_ne (s : RegistryState) (info : LocalModelInfo) (x : String)
    (hx : x ≠ info.model_id) :
    ModelRegistry.get (ModelRegistry.register s info) x = ModelRegistry.get s x := by
  unfold ModelRegistry.register ModelRegistry.get
  rw [models_save_registry]
  exact mapGet_mapInsert_ne _ _ _ _ hx

theorem get_update_status_not_loaded (s : RegistryState) (model_id : String)
    (st : ModelStatus) (err : Option String) (info : LocalModelInfo)
    (h : ModelRegistry.get s model_id = some info) (hst : ¬ st = ModelStatus.loaded) :
    ModelRegistry.get (ModelRegistry.update_status s model_id st err) model_id =
      some { info with status := st, error_message := err } := by
  unfold ModelRegistry.update_status
  unfold ModelRegistry.get at h
  rw [h]
  simp only [hst, if_false]
  unfold ModelRegistry.get
  rw [models_save_registry]
  exact mapGet_mapInsert_self _ _ _

theorem get_update_status_ne (s : RegistryState) (model_id x : String)
    (st : ModelStatus) (err : Option String) (hx : x ≠ model_id) :
    ModelRegistry.get (ModelRegistry.update_status s model_id st err) x =
      ModelRegistry.get s x := by
  unfold ModelRegistry.update_status
  cases hg : mapGet s.models model_id with
  | none => rfl
  | some info =>
    unfold ModelRegistry.get
    rw [models_save_registry]
    exact mapGet_mapInsert_ne _ _ _ _ hx

theorem get_update_status_map_status (s : RegistryState) (model_id : String)
    (st : ModelStatus) (err : Option String) (info : LocalModelInfo)
    (h : ModelRegistry.get s model_id = some info) :
    (ModelRegistry.get (ModelRegistry.update_status s model_id st err)
        model_id).map LocalModelInfo.status = some st := by
  unfold ModelRegistry.update_status
  unfold ModelRegistry.get at h
  rw [h]
  by_cases hst : st = ModelStatus.loaded
  · simp only [hst, eq_self_iff_true, if_true]
    unfold ModelRegistry.get
    rw [models_save_registry, mapGet_mapInsert_self]
    rfl
  · simp only [hst, if_false]
    unfold ModelRegistry.get
    rw [models_save_registry, mapGet_mapInsert_self]
    rfl

theorem update_status_of_get_none (s : RegistryState) (model_id : String)
    (st : ModelStatus) (err : Option String) (h : mapGet s.models model_id = none) :
    ModelRegistry.update_status s model_id st err = s := by
  unfold ModelRegistry.update_status
  rw [h]

theorem get_remove_self (s : RegistryState) (model_id : String) :
    ModelRegistry.get (ModelRegistry.remove s model_id).2 model_id = none := by
  unfold ModelRegistry.remove
  cases hm : mapMem s.models model_id with
  | true =>
    rw [if_pos rfl]
    unfold ModelRegistry.get
    rw [models_save_registry]
    exact mapGet_mapRemove_self _ _
  | false =>
    rw [if_neg (by simp)]
    exact mapGet_none_of_mapMem_false _ _ hm

theorem get_remove_ne (s : RegistryState) (model_id x : String) (hx : x ≠ model_id) :
    ModelRegistry.get (ModelRegistry.remove s model_id).2 x =
      ModelRegistry.get s x := by
  unfold ModelRegistry.remove
  cases hm : mapMem s.models model_id with
  | true =>
    rw [if_pos rfl]
    unfold ModelRegistry.get
    rw [models_save_registry]
    exact mapGet_mapRemove_ne _ _ _ hx
  | false => rw [if_neg (by simp)]

theorem find_none_of_any_false {α : Type} (p : α → Bool) (l : List α)
    (h : l.any p = false) : l.find? p = none := by
  induction l with
  | nil => rfl
  | cons a l ih =>
    rw [List.any_cons] at h
    cases hpa : p a with
    | true => rw [hpa] at h; simp at h
    | false =>
      rw [hpa] at h
      rw [Bool.false_or] at h
      rw [List.find?_cons_of_neg]
      · exact ih h
      · simp [hpa]

theorem any_false_of_find_none {α : Type} (p : α → Bool) (l : List α)
    (h : l.find? p = none) : l.any p = false := by
  induction l with
  | nil => rfl
  | cons a l ih =>
    cases hpa : p a with
    | true => rw [List.find?_cons_of_pos _ hpa] at h; cases h
    | false =>
      rw [List.find?_cons_of_neg _ (by simp [hpa])] at h
      rw [List.any_cons, hpa, Bool.false_or]
      exact ih h

theorem any_true_of_find_some {α : Type} (p : α → Bool) (l : List α) (m : α)
    (h : l.find? p = some m) : l.any p = true := by
  have hm := List.mem_of_find?_eq_some h
  have hp := List.find?_some h
  exact List.any_eq_true.mpr ⟨m, hm, hp⟩

theorem ofString_value (st : ModelStatus) : ModelStatus.ofString st.value = some st := by
  cases st <;> rfl

theorem from_dict_to_dict (r : LocalModelInfo) :
    LocalModelInfo.from_dict r.to_dict = some r := by
  unfold LocalModelInfo.from_dict LocalModelInfo.to_dict
  simp [ofString_value]

theorem parseModels_map (l : List (String × LocalModelInfo)) :
    parseModels (l.map (fun p => (p.1, p.2.to_dict))) = some l := by
  induction l with
  | nil => rfl
  | cons p rest ih => simp [parseModels, from_dict_to_dict, ih]

theorem length_filter_le {α : Type} (p : α → Bool) (l : List α) :
    (l.filter p).length ≤ l.length := by
  induction l with
  | nil => simp
  | cons a l ih =>
    by_cases h : p a
    · simp [List.filter, h]
      omega
    · simp [List.filter, h]
      omega

theorem unload_max (s : LoaderState) (model_id : String) :
    ((ModelLoader.unload s model_id).2).max_loaded_models = s.max_loaded_models := by
  unfold ModelLoader.unload
  split <;> rfl

theorem unload_len_le (s : LoaderState) (model_id : String) :
    ((ModelLoader.unload s model_id).2).loaded_models.length ≤ s.loaded_models.length := by
  unfold ModelLoader.unload
  split
  · exact length_filter_le _ _
  · exact Nat.le_refl _

theorem any_filter_ne (l : List LoadedModel) (model_id x : String) :
    ((l.filter fun m => m.model_id ≠ model_id).any fun m => m.model_id = x) =
      if x = model_id then false else l.any fun m => m.model_id = x := by
  induction l with
  | nil => by_cases hx : x = model_id <;> simp [hx]
  | cons a l ih =>
    by_cases ha : a.model_id = model_id
    · rw [List.filter_cons_of_neg (by simp [ha])]
      rw [ih]
      by_cases hx : x = model_id
      · rw [if_pos hx, if_pos hx]
      · rw [if_neg hx, if_neg hx]
        have hax : ¬ a.model_id = x := by
          rw [ha]
          exact fun hh => hx hh.symm
        rw [List.any_cons]
        simp [hax]
    · rw [List.filter_cons_of_pos (by simp [ha])]
      rw [List.any_cons, List.any_cons, ih]
      by_cases hx : x = model_id
      · rw [if_pos hx, if_pos hx]
        subst hx
        simp [ha]
      · rw [if_neg hx, if_neg hx]

theorem is_loaded_unload (s : LoaderState) (model_id x : String) :
    ModelLoader.is_loaded (ModelLoader.unload s model_id).2 x =
      if x = model_id then false else ModelLoader.is_loaded s x := by
  unfold ModelLoader.unload ModelLoader.is_loaded
  by_cases hany : (s.loaded_models.any fun m => m.model_id = model_id) = true
  · rw [if_pos hany]
    exact any_filter_ne _ _ _
  · have hb : (s.loaded_models.any fun m => m.model_id = model_id) = false := by
      cases hset : s.loaded_models.any fun m => m.model_id = model_id
      · rfl
      · exact absurd hset hany
    rw [if_neg hany]
    by_cases hx : x = model_id
    · rw [if_pos hx, hx]
      exact hb
    · rw [if_neg hx]

theorem any_append_single (l : List LoadedModel) (e : LoadedModel) (x : String) :
    ((l ++ [e]).any fun m => m.model_id = x) =
      ((l.any fun m => m.model_id = x) || (e.model_id = x)) := by
  simp [List.any_append]

theorem evict_state (s : LoaderState) : (ModelLoader.evict_if_needed s).2 = s := by
  unfold ModelLoader.evict_if_needed
  split
  · cases lruMin s.loaded_models <;> rfl
  · rfl

theorem evict_lt (s : LoaderState)
    (h : s.loaded_models.length < s.max_loaded_models) :
    ModelLoader.evict_if_needed s = (Outcome.ok (), s) := by
  unfold ModelLoader.evict_if_needed
  rw [if_neg (by omega)]

theorem evict_hang (s : LoaderState)
    (hge : s.max_loaded_models ≤ s.loaded_models.length)
    (hne : s.loaded_models ≠ []) :
    ModelLoader.evict_if_needed s = (Outcome.hang, s) := by
  unfold ModelLoader.evict_if_needed
  rw [if_pos hge]
  cases hl : s.loaded_models with
  | nil => exact absurd hl hne
  | cons a rest => rfl

theorem evict_err (s : LoaderState)
    (hge : s.max_loaded_models ≤ s.loaded_models.length)
    (hnil : s.loaded_models = []) :
    ModelLoader.evict_if_needed s =
      (Outcome.error "min() arg is an empty sequence", s) := by
  unfold ModelLoader.evict_if_needed
  rw [if_pos hge]
  cases hl : s.loaded_models with
  | nil => rfl
  | cons a rest => rw [hl] at hnil; cases hnil

theorem evict_ok_lt (s : LoaderState) (u : Unit)
    (h : (ModelLoader.evict_if_needed s).1 = Outcome.ok u) :
    s.loaded_models.length < s.max_loaded_models := by
  by_cases hlt : s.loaded_models.length < s.max_loaded_models
  · exact hlt
  · exfalso
    have hge : s.max_loaded_models ≤ s.loaded_models.length := by omega
    cases hl : s.loaded_models with
    | nil => rw [evict_err s hge hl] at h; cases h
    | cons a rest =>
      rw [evict_hang s hge (by rw [hl]; simp)] at h
      cases h

theorem load_max (s : LoaderState) (loadOk : Bool) (model_id device dtype : String) :
    ((ModelLoader.load s loadOk model_id device dtype).2).max_loaded_models =
      s.max_loaded_models := by
  unfold ModelLoader.load
  cases hf : ModelLoader.find s model_id with
  | some m => rfl
  | none =>
    rcases hev : ModelLoader.evict_if_needed s with ⟨res, s1⟩
    have hs1 : s1 = s := by
      have := evict_state s
      rw [hev] at this
      exact this
    cases res with
    | ok u => cases loadOk <;> simp [hs1]
    | error e => simp [hs1]
    | hang => simp [hs1]

theorem load_len (s : LoaderState) (loadOk : Bool) (model_id device dtype : String)
    (h : s.loaded_models.length ≤ s.max_loaded_models) :
    ((ModelLoader.load s loadOk model_id device dtype).2).loaded_models.length ≤
      s.max_loaded_models := by
  unfold ModelLoader.load
  cases hf : ModelLoader.find s model_id with
  | some m => exact h
  | none =>
    rcases hev : ModelLoader.evict_if_needed s with ⟨res, s1⟩
    have hs1 : s1 = s := by
      have := evict_state s
      rw [hev] at this
      exact this
    cases res with
    | ok u =>
      have hlt : s.loaded_models.length < s.max_loaded_models := by
        apply evict_ok_lt s u
        rw [hev]
      cases loadOk with
      | true =>
        subst hs1
        simp
        omega
      | false => subst hs1; simpa using h
    | error e => subst hs1; simpa using h
    | hang => subst hs1; simpa using h

theorem generate_len (s : LoaderState) (model_id : String) :
    ((ModelLoader.generate s model_id).2).loaded_models.length =
      s.loaded_models.length := by
  unfold ModelLoader.generate
  cases hf : ModelLoader.find s model_id with
  | none => rfl
  | some m => simp

theorem generate_max (s : LoaderState) (model_id : String) :
    ((ModelLoader.generate s model_id).2).max_loaded_models = s.max_loaded_models := by
  unfold ModelLoader.generate
  cases hf : ModelLoader.find s model_id with
  | none => rfl
  | some m => rfl

theorem loaderStep_max (s : LoaderState) (op : LoaderOp) :
    (loaderStep s op).max_loaded_models = s.max_loaded_models := by
  cases op with
  | load ok model_id => exact load_max s ok model_id "auto" "auto"
  | unload model_id => exact unload_max s model_id
  | generate model_id => exact generate_max s model_id

theorem loaderStep_len (s : LoaderState) (op : LoaderOp)
    (h : s.loaded_models.length ≤ s.max_loaded_models) :
    (loaderStep s op).loaded_models.length ≤ s.max_loaded_models := by
  cases op with
  | load ok model_id => exact load_len s ok model_id "auto" "auto" h
  | unload model_id => exact Nat.le_trans (unload_len_le s model_id) h
  | generate model_id => rw [loaderStep]; rw [generate_len]; exact h

theorem runLoaderOps_len (ops : List LoaderOp) (s : LoaderState)
    (h : s.loaded_models.length ≤ s.max_loaded_models) :
    (runLoaderOps s ops).loaded_models.length ≤ s.max_loaded_models := by
  induction ops generalizing s with
  | nil => exact h
  | cons op ops ih =>
    unfold runLoaderOps
    have h1 := loaderStep_len s op h
    have h2 := loaderStep_max s op
    have := ih (loaderStep s op) (by rw [h2]; exact h1)
    rw [h2] at this
    exact this

theorem statusConsistent_pointwise (s s1 : ManagerState) (model_id : String)
    (hothers : ∀ x, x ≠ model_id →
        ModelRegistry.get s1.registry x = ModelRegistry.get s.registry x
        ∧ ModelLoader.is_loaded s1.loader x = ModelLoader.is_loaded s.loader x)
    (hid : ((ModelRegistry.get s1.registry model_id).map LocalModelInfo.status =
        some ModelStatus.loaded)
      ↔ ModelLoader.is_loaded s1.loader model_id = true)
    (h : statusConsistent s) : statusConsistent s1 := by
  intro x
  by_cases hx : x = model_id
  · rw [hx]
    exact hid
  · rw [(hothers x hx).1, (hothers x hx).2]
    exact h x

theorem download_run_consistent (s : ManagerState) (dlOk : Bool) (dlSize : Nat)
    (model_id revision : String) (quantization : Option String)
    (h : statusConsistent s)
    (hnot : ModelLoader.is_loaded s.loader model_id = false) :
    statusConsistent
      (ModelManager.download_run s dlOk dlSize model_id revision quantization).2 := by
  cases dlOk with
  | true =>
    obtain ⟨info, hgid, hst, hothers, hld⟩ :
        ∃ info : LocalModelInfo,
          ModelRegistry.get
              (ModelManager.download_run s true dlSize model_id revision
                quantization).2.registry model_id = some info
          ∧ info.status = ModelStatus.ready
          ∧ (∀ x, x ≠ model_id →
              ModelRegistry.get
                (ModelManager.download_run s true dlSize model_id revision
                  quantization).2.registry x = ModelRegistry.get s.registry x)
          ∧ (ModelManager.download_run s true dlSize model_id revision
              quantization).2.loader = s.loader := by
      refine ⟨_, get_register_self _ _, rfl, ?_, rfl⟩
      intro x hx
      exact (get_register_ne _ _ _ hx).trans (get_register_ne _ _ _ hx)
    refine statusConsistent_pointwise s _ model_id ?_ ?_ h
    · intro x hx
      refine ⟨hothers x hx, ?_⟩
      rw [hld]
    · apply iff_of_false
      · rw [hgid]
        simp [hst]
      · show ¬ ModelLoader.is_loaded
            (ModelManager.download_run s true dlSize model_id revision
              quantization).2.loader model_id = true
        rw [hld]
        simp [hnot]
  | false =>
    have hothers : ∀ x, x ≠ model_id →
        ModelRegistry.get
          (ModelManager.download_run s false dlSize model_id revision
            quantization).2.registry x = ModelRegistry.get s.registry x := by
      intro x hx
      exact (get_update_status_ne _ _ _ _ _ hx).trans (get_register_ne _ _ _ hx)
    have hld : (ModelManager.download_run s false dlSize model_id revision
        quantization).2.loader = s.loader := rfl
    have hgid : (ModelRegistry.get
        (ModelManager.download_run s false dlSize model_id revision
          quantization).2.registry model_id).map LocalModelInfo.status =
        some ModelStatus.error :=
      get_update_status_map_status _ _ _ _ _ (get_register_self _ _)
    refine statusConsistent_pointwise s _ model_id ?_ ?_ h
    · intro x hx
      refine ⟨hothers x hx, ?_⟩
      rw [hld]
    · apply iff_of_false
      · rw [hgid]
        simp
      · show ¬ ModelLoader.is_loaded
            (ModelManager.download_run s false dlSize model_id revision
              quantization).2.loader model_id = true
        rw [hld]
        simp [hnot]

theorem download_model_consistent (s : ManagerState) (dlOk : Bool) (dlSize : Nat)
    (model_id revision : String) (quantization : Option String) (force : Bool)
    (h : statusConsistent s)
    (hnot : ModelLoader.is_loaded s.loader model_id = false) :
    statusConsistent
      (ModelManager.download_model s dlOk dlSize model_id revision quantization
        force).2 := by
  unfold ModelManager.download_model
  cases hg : ModelRegistry.get s.registry model_id with
  | none => exact download_run_consistent s dlOk dlSize model_id revision quantization h hnot
  | some existing =>
    by_cases hcond : existing.status = ModelStatus.ready ∧ force = false
    · simp only [if_pos hcond]
      exact h
    · simp only [if_neg hcond]
      exact download_run_consistent s dlOk dlSize model_id revision quantization h hnot

theorem load_tail_consistent (s1 : ManagerState) (loadOk : Bool)
    (model_id device dtype : String) (r : LocalModelInfo)
    (hr : ModelRegistry.get s1.registry model_id = some r)
    (h1 : statusConsistent s1) :
    statusConsistent
      (ModelManager.load_model_tail s1 loadOk model_id device dtype).2 := by
  have hr2 : ModelRegistry.get
      (ModelRegistry.update_status s1.registry model_id ModelStatus.loading none)
      model_id = some { r with status := ModelStatus.loading, error_message := none } :=
    get_update_status_not_loaded _ _ _ _ _ hr (by decide)
  cases hf : ModelLoader.find s1.loader model_id with
  | some m =>
    have hres : ModelLoader.is_loaded s1.loader model_id = true := by
      unfold ModelLoader.find at hf
      exact any_true_of_find_some _ _ m hf
    have hload : ModelLoader.load s1.loader loadOk model_id device dtype =
        (Outcome.ok m, s1.loader) := by
      unfold ModelLoader.load
      rw [hf]
    have htail : ModelManager.load_model_tail s1 loadOk model_id device dtype =
        (Outcome.ok m,
         { s1 with
             loader := s1.loader
             registry :=
               ModelRegistry.update_status
                 (ModelRegistry.update_status s1.registry model_id ModelStatus.loading none)
                 model_id ModelStatus.loaded none }) := by
      unfold ModelManager.load_model_tail
      simp only []
      rw [hload]
    rw [htail]
    refine statusConsistent_pointwise s1 _ model_id ?_ ?_ h1
    · intro x hx
      exact ⟨(get_update_status_ne _ _ _ _ _ hx).trans (get_update_status_ne _ _ _ _ _ hx),
        rfl⟩
    · apply iff_of_true
      · exact get_update_status_map_status _ _ _ _ _ hr2
      · exact hres
  | none =>
    have hres : ModelLoader.is_loaded s1.loader model_id = false := by
      unfold ModelLoader.find at hf
      unfold ModelLoader.is_loaded
      exact any_false_of_find_none _ _ hf
    by_cases hcap : s1.loader.loaded_models.length < s1.loader.max_loaded_models
    · cases loadOk with
      | true =>
        have hload : ModelLoader.load s1.loader true model_id device dtype =
            (Outcome.ok (loadedEntry s1.loader model_id device dtype),
             { s1.loader with
                loaded_models := s1.loader.loaded_models ++
                  [loadedEntry s1.loader model_id device dtype]
                clock := s1.loader.clock + 1 }) := by
          unfold ModelLoader.load
          rw [hf, evict_lt _ hcap]
          rfl
        have hLx : ∀ x, ModelLoader.is_loaded
            { s1.loader with
                loaded_models := s1.loader.loaded_models ++
                  [loadedEntry s1.loader model_id device dtype]
                clock := s1.loader.clock + 1 } x =
            (ModelLoader.is_loaded s1.loader x || (model_id = x)) := by
          intro x
          exact any_append_single _ _ _
        have htail : ModelManager.load_model_tail s1 true model_id device dtype =
            (Outcome.ok (loadedEntry s1.loader model_id device dtype),
             { s1 with
                 loader :=
                   { s1.loader with
                      loaded_models := s1.loader.loaded_models ++
                        [loadedEntry s1.loader model_id device dtype]
                      clock := s1.loader.clock + 1 }
                 registry :=
                   ModelRegistry.update_status
                     (ModelRegistry.update_status s1.registry model_id
                       ModelStatus.loading none)
                     model_id ModelStatus.loaded none }) := by
          unfold ModelManager.load_model_tail
          simp only []
          rw [hload]
        rw [htail]
        refine statusConsistent_pointwise s1 _ model_id ?_ ?_ h1
        · intro x hx
          refine ⟨(get_update_status_ne _ _ _ _ _ hx).trans
            (get_update_status_ne _ _ _ _ _ hx), ?_⟩
          rw [hLx x]
          simp [Ne.symm hx]
        · apply iff_of_true
          · exact get_update_status_map_status _ _ _ _ _ hr2
          · rw [hLx model_id]
            simp
      | false =>
        have hload : ModelLoader.load s1.loader false model_id device dtype =
            (Outcome.error "failed to load model", s1.loader) := by
          unfold ModelLoader.load
          rw [hf, evict_lt _ hcap]
          rfl
        have htail : ModelManager.load_model_tail s1 false model_id device dtype =
            (Outcome.error "failed to load model",
             { s1 with
                 loader := s1.loader
                 registry :=
                   ModelRegistry.update_status
                     (ModelRegistry.update_status s1.registry model_id
                       ModelStatus.loading none)
                     model_id ModelStatus.ready (some "failed to load model") }) := by
          unfold ModelManager.load_model_tail
          simp only []
          rw [hload]
        rw [htail]
        refine statusConsistent_pointwise s1 _ model_id ?_ ?_ h1
        · intro x hx
          exact ⟨(get_update_status_ne _ _ _ _ _ hx).trans
            (get_update_status_ne _ _ _ _ _ hx), rfl⟩
        · apply iff_of_false
          · rw [get_update_status_map_status _ _ _ _ _ hr2]
            simp
          · simp [hres]
    · have hge : s1.loader.max_loaded_models ≤ s1.loader.loaded_models.length := by
        omega
      rcases hl : s1.loader.loaded_models with _ | ⟨a, rest⟩
      · have hload : ModelLoader.load s1.loader loadOk model_id device dtype =
            (Outcome.error "min() arg is an empty sequence", s1.loader) := by
          unfold ModelLoader.load
          rw [hf, evict_err _ hge hl]
        have htail : ModelManager.load_model_tail s1 loadOk model_id device dtype =
            (Outcome.error "min() arg is an empty sequence",
             { s1 with
                 loader := s1.loader
                 registry :=
                   ModelRegistry.update_status
                     (ModelRegistry.update_status s1.registry model_id
                       ModelStatus.loading none)
                     model_id ModelStatus.ready
                     (some "min() arg is an empty sequence") }) := by
          unfold ModelManager.load_model_tail
          simp only []
          rw [hload]
        rw [htail]
        refine statusConsistent_pointwise s1 _ model_id ?_ ?_ h1
        · intro x hx
          exact ⟨(get_update_status_ne _ _ _ _ _ hx).trans
            (get_update_status_ne _ _ _ _ _ hx), rfl⟩
        · apply iff_of_false
          · rw [get_update_status_map_status _ _ _ _ _ hr2]
            simp
          · simp [hres]
      · have hload : ModelLoader.load s1.loader loadOk model_id device dtype =
            (Outcome.hang, s1.loader) := by
          unfold ModelLoader.load
          rw [hf, evict_hang _ hge (by rw [hl]; simp)]
        have htail : ModelManager.load_model_tail s1 loadOk model_id device dtype =
            (Outcome.hang,
             { s1 with
                 loader := s1.loader
                 registry :=
                   ModelRegistry.update_status s1.registry model_id
                     ModelStatus.loading none }) := by
          unfold ModelManager.load_model_tail
          simp only []
          rw [hload]
        rw [htail]
        refine statusConsistent_pointwise s1 _ model_id ?_ ?_ h1
        · intro x hx
          exact ⟨get_update_status_ne _ _ _ _ _ hx, rfl⟩
        · apply iff_of_false
          · rw [get_update_status_map_status _ _ _ _ _ hr]
            simp
          · simp [hres]

theorem download_model_ready_short_circuit (s : ManagerState)
    (model_id revision : String) (quantization : Option String)
    (dlOk : Bool) (dlSize : Nat) (r : LocalModelInfo)
    (hr : ModelRegistry.get s.registry model_id = some r)
    (hready : r.status = ModelStatus.ready) :
    ModelManager.download_model s dlOk dlSize model_id revision quantization false =
      (Except.ok r, s) := by
  unfold ModelManager.download_model
  rw [hr]
  simp only [hready, eq_self_iff_true, and_self, if_true]

theorem download_run_ok (s : ManagerState) (dlSize : Nat)
    (model_id revision : String) (quantization : Option String) :
    ∃ info : LocalModelInfo,
      (ModelManager.download_run s true dlSize model_id revision quantization).1 =
        Except.ok info
      ∧ info.status = ModelStatus.ready
      ∧ ModelRegistry.get
          (ModelManager.download_run s true dlSize model_id revision quantization).2.registry
          model_id = some info
      ∧ (ModelManager.download_run s true dlSize model_id revision quantization).2.transfers
          = s.transfers + 1 := by
  refine ⟨_, rfl, rfl, ?_, rfl⟩
  exact get_register_self _ _

theorem load_model_consistent (s : ManagerState) (dlOk : Bool) (dlSize : Nat)
    (loadOk : Bool) (model_id device dtype : String) (h : statusConsistent s) :
    statusConsistent
      (ModelManager.load_model s dlOk dlSize loadOk model_id device dtype).2 := by
  unfold ModelManager.load_model
  cases hg : ModelRegistry.get s.registry model_id with
  | some r =>
    by_cases hrl : r.status = ModelStatus.ready ∨ r.status = ModelStatus.loaded
    · simp only [if_pos hrl]
      exact load_tail_consistent s loadOk model_id device dtype r hg h
    · simp only [if_neg hrl]
      have hnot : ModelLoader.is_loaded s.loader model_id = false := by
        cases hres : ModelLoader.is_loaded s.loader model_id
        · rfl
        · exfalso
          have hx := (h model_id).mpr hres
          rw [hg] at hx
          simp at hx
          exact hrl (Or.inr hx)
      have hdm : ModelManager.download_model s dlOk dlSize model_id "main" none false =
          ModelManager.download_run s dlOk dlSize model_id "main" none := by
        unfold ModelManager.download_model
        rw [hg]
        have hnready : ¬ r.status = ModelStatus.ready := fun hh => hrl (Or.inl hh)
        simp only [hnready, false_and, if_false]
      rw [hdm]
      cases dlOk with
      | true =>
        obtain ⟨info, h1, h2, h3, h4⟩ := download_run_ok s dlSize model_id "main" none
        have hsplit : ModelManager.download_run s true dlSize model_id "main" none =
            (Except.ok info,
             (ModelManager.download_run s true dlSize model_id "main" none).2) := by
          rw [← h1]
        rw [hsplit]
        exact load_tail_consistent _ loadOk model_id device dtype info h3
          (download_run_consistent s true dlSize model_id "main" none h hnot)
      | false =>
        have h1 : (ModelManager.download_run s false dlSize model_id "main" none).1 =
            Except.error "download error" := rfl
        have hsplit : ModelManager.download_run s false dlSize model_id "main" none =
            (Except.error "download error",
             (ModelManager.download_run s false dlSize model_id "main" none).2) := by
          rw [← h1]
        rw [hsplit]
        exact download_run_consistent s false dlSize model_id "main" none h hnot
  | none =>
    have hnot : ModelLoader.is_loaded s.loader model_id = false := by
      cases hres : ModelLoader.is_loaded s.loader model_id
      · rfl
      · exfalso
        have hx := (h model_id).mpr hres
        rw [hg] at hx
        simp at hx
    cases dlOk with
    | true =>
      obtain ⟨info, h1, h2, h3, h4⟩ := download_run_ok s dlSize model_id "main" none
      have hdm : ModelManager.download_model s true dlSize model_id "main" none false =
          ModelManager.download_run s true dlSize model_id "main" none := by
        unfold ModelManager.download_model
        rw [hg]
      rw [hdm]
      have hsplit : ModelManager.download_run s true dlSize model_id "main" none =
          (Except.ok info,
           (ModelManager.download_run s true dlSize model_id "main" none).2) := by
        rw [← h1]
      rw [hsplit]
      exact load_tail_consistent _ loadOk model_id device dtype info h3
        (download_run_consistent s true dlSize model_id "main" none h hnot)
    | false =>
      have hdm : ModelManager.download_model s false dlSize model_id "main" none false =
          ModelManager.download_run s false dlSize model_id "main" none := by
        unfold ModelManager.download_model
        rw [hg]
      rw [hdm]
      have h1 : (ModelManager.download_run s false dlSize model_id "main" none).1 =
          Except.error "download error" := rfl
      have hsplit : ModelManager.download_run s false dlSize model_id "main" none =
          (Except.error "download error",
           (ModelManager.download_run s false dlSize model_id "main" none).2) := by
        rw [← h1]
      rw [hsplit]
      exact download_run_consistent s false dlSize model_id "main" none h hnot

theorem unload_model_consistent (s : ManagerState) (model_id : String)
    (h : statusConsistent s) :
    statusConsistent (ModelManager.unload_model s model_id).2 := by
  unfold ModelManager.unload_model ModelLoader.unload
  by_cases hany : (s.loader.loaded_models.any fun m => m.model_id = model_id) = true
  · rw [if_pos hany]
    refine statusConsistent_pointwise s _ model_id ?_ ?_ h
    · intro x hx
      refine ⟨get_update_status_ne _ _ _ _ _ hx, ?_⟩
      have := any_filter_ne s.loader.loaded_models model_id x
      rw [if_neg hx] at this
      exact this
    · apply iff_of_false
      · cases hgid : ModelRegistry.get s.registry model_id with
        | none =>
          rw [update_status_of_get_none _ _ _ _ hgid, hgid]
          simp
        | some info =>
          rw [get_update_status_map_status _ _ _ _ _ hgid]
          simp
      · have := any_filter_ne s.loader.loaded_models model_id model_id
        rw [if_pos rfl] at this
        simp only [ModelLoader.is_loaded]
        rw [this]
        simp
  · have hb : (s.loader.loaded_models.any fun m => m.model_id = model_id) = false := by
      cases hset : s.loader.loaded_models.any fun m => m.model_id = model_id
      · rfl
      · exact absurd hset hany
    rw [if_neg hany]
    exact h

theorem delete_model_registry (s : ManagerState) (model_id : String) (df : Bool) :
    (ModelManager.delete_model s true model_id df).2.registry =
      (ModelRegistry.remove s.registry model_id).2 := by
  unfold ModelManager.delete_model ModelDownloader.delete_model
  by_cases hres : ModelLoader.is_loaded s.loader model_id = true <;>
    cases df <;>
      by_cases hc : model_id ∈ s.files <;>
        simp [hres, hc]

theorem delete_model_loader (s : ManagerState) (model_id : String) (df : Bool) :
    (ModelManager.delete_model s true model_id df).2.loader =
      if ModelLoader.is_loaded s.loader model_id = true
      then (ModelLoader.unload s.loader model_id).2 else s.loader := by
  unfold ModelManager.delete_model ModelDownloader.delete_model
  by_cases hres : ModelLoader.is_loaded s.loader model_id = true <;>
    cases df <;>
      by_cases hc : model_id ∈ s.files <;>
        simp [hres, hc]

theorem delete_model_consistent (s : ManagerState) (model_id : String) (df : Bool)
    (h : statusConsistent s) :
    statusConsistent (ModelManager.delete_model s true model_id df).2 := by
  refine statusConsistent_pointwise s _ model_id ?_ ?_ h
  · intro x hx
    constructor
    · rw [delete_model_registry]
      exact get_remove_ne _ _ _ hx
    · rw [delete_model_loader]
      by_cases hres : ModelLoader.is_loaded s.loader model_id = true
      · rw [if_pos hres]
        have := is_loaded_unload s.loader model_id x
        rw [if_neg hx] at this
        exact this
      · rw [if_neg hres]
  · apply iff_of_false
    · rw [delete_model_registry, get_remove_self]
      simp
    · rw [delete_model_loader]
      by_cases hres : ModelLoader.is_loaded s.loader model_id = true
      · rw [if_pos hres]
        have := is_loaded_unload s.loader model_id model_id
        rw [if_pos rfl] at this
        rw [this]
        simp
      · rw [if_neg hres]
        exact hres

/- ===================== claim theorems ===================== -/

/-- Claim C1 (counterexample): the status-consistency iff is violated at an
observable point reached by three completed calls.  On a fresh manager,
`downloadModel("M")` makes M READY and `loadModel("M")` (below capacity, so
no eviction and no deadlock) makes it LOADED and resident; a second
`downloadModel("M")` without force then completes normally -- the
short-circuit tests only READY, not LOADED -- and re-registers the record
as READY while M stays resident in the Loader: `isLoaded("M")` is true but
the status is not LOADED. -/
theorem c1_download_on_loaded_breaks_consistency :
    (∃ m, (ModelManager.load_model c1s1 true 10 true "M" "auto" "auto").1 =
        Outcome.ok m)
    ∧ (ModelRegistry.get c1s2.registry "M").map LocalModelInfo.status =
        some ModelStatus.loaded
    ∧ ModelLoader.is_loaded c1s2.loader "M" = true
    ∧ (∃ r, (ModelManager.download_model c1s2 true 10 "M" "main" none false).1 =
        Except.ok r)
    ∧ (ModelRegistry.get c1s3.registry "M").map LocalModelInfo.status =
        some ModelStatus.ready
    ∧ ModelLoader.is_loaded c1s3.loader "M" = true :=
  ⟨⟨_, rfl⟩, rfl, rfl, ⟨_, rfl⟩, rfl, rfl⟩

/-- Claim C1 (amended): every Manager operation other than a `downloadModel`
aimed at a currently resident id preserves the invariant "status == LOADED
iff resident in the Loader", so the iff holds at every observable point of
a run whose downloads target non-resident ids.  A `loadModel` that needs an
LRU eviction deadlocks on the loader lock (hang outcome) with the record
left at LOADING and residency unchanged, so eviction never produces an
observable violation; `deleteModel` is taken with its file removal
succeeding. -/
theorem c1_manager_ops_preserve_status_consistency (s : ManagerState)
    (op : ManagerOp) (h : statusConsistent s) (hop : opSafe s op = true) :
    statusConsistent (managerStep s op) := by
  cases op with
  | download dlOk dlSize model_id revision quantization force =>
    have hnot : ModelLoader.is_loaded s.loader model_id = false := by
      have hop2 : (! ModelLoader.is_loaded s.loader model_id) = true := hop
      cases hres : ModelLoader.is_loaded s.loader model_id
      · rfl
      · rw [hres] at hop2
        simp at hop2
    exact download_model_consistent s dlOk dlSize model_id revision quantization
      force h hnot
  | load dlOk dlSize loadOk model_id device dtype =>
    exact load_model_consistent s dlOk dlSize loadOk model_id device dtype h
  | unload model_id => exact unload_model_consistent s model_id h
  | delete model_id delete_files => exact delete_model_consistent s model_id delete_files h

/-- Witness for C1 (amended): the theorem applied at a consistent state with
M loaded and resident, for a download of the non-resident id N. -/
theorem c1_manager_ops_preserve_status_consistency_witness :
    statusConsistent
      (managerStep w1State (ManagerOp.download true 10 "N" "main" none false)) :=
  c1_manager_ops_preserve_status_consistency w1State
    (ManagerOp.download true 10 "N" "main" none false)
    (by
      intro x
      by_cases hx : ("M" : String) = x
      · subst hx
        exact Iff.intro (fun _ => rfl) (fun _ => rfl)
      · have hg : ModelRegistry.get w1State.registry x = none := by
          simp [w1State, ModelRegistry.get, mapGet, hx]
        have hl : ModelLoader.is_loaded w1State.loader x = false := by
          simp [w1State, ModelLoader.is_loaded, w1Entry, hx]
        rw [hg, hl]
        simp)
    rfl

/-- Claim C2 (counterexample): the claim says `register` fails with an
IOError when the snapshot cannot be persisted.  In the code the write error
is caught and logged inside `_save_registry`, so at a state whose durable
write fails (`diskWrite` returns the IOError), `register` still returns
normally with the in-memory map updated and the disk file untouched -- no
error reaches the caller. -/
theorem c2_register_swallows_persistence_failure :
    ModelRegistry.diskWrite
        { c2Start with models := mapInsert c2Start.models "A" (readyRecord "A") } =
      Except.error "IOError: write failed"
    ∧ (ModelRegistry.register c2Start (readyRecord "A")).models = [("A", readyRecord "A")]
    ∧ (ModelRegistry.register c2Start (readyRecord "A")).disk = none :=
  ⟨rfl, rfl, rfl⟩

/-- Claim C2 (amended): for every registry state whose durable write fails,
`register` updates the in-memory map with the record, leaves the on-disk
snapshot unchanged, and returns normally (the write error is swallowed
inside `_save_registry`; `register` has no failure path). -/
theorem c2_register_updates_map_without_raising (s : RegistryState)
    (info : LocalModelInfo) (h : s.persist_ok = false) :
    (ModelRegistry.register s info).models = mapInsert s.models info.model_id info
    ∧ (ModelRegistry.register s info).disk = s.disk := by
  unfold ModelRegistry.register ModelRegistry.save_registry ModelRegistry.diskWrite
  simp [h]

/-- Witness for C2 (amended): the general theorem applied at `c2Start`. -/
theorem c2_register_updates_map_without_raising_witness :
    (ModelRegistry.register c2Start (readyRecord "A")).models =
        mapInsert c2Start.models "A" (readyRecord "A")
    ∧ (ModelRegistry.register c2Start (readyRecord "A")).disk = c2Start.disk :=
  c2_register_updates_map_without_raising c2Start (readyRecord "A") rfl

/-- Claim C3 (code bug): terminal download states are not final.  Starting a
download of demo/model-7b, cancelling it mid-flight (cancel returns true
and both the task status and its progress status read CANCELLED), and
letting the un-interrupted transfer finish (the cancel event is never
polled by `download`) leaves the task with status COMPLETED -- the
CANCELLED terminal state was overwritten. -/
theorem c3_cancelled_task_overwritten_to_completed :
    c3Cancel.1 = true
    ∧ (mapGet c3Cancel.2.active_tasks "demo/model-7b").map DownloadTask.status =
        some DownloadStatus.cancelled
    ∧ (mapGet c3Cancel.2.active_tasks "demo/model-7b").map
        (fun t => t.progress.status) = some DownloadStatus.cancelled
    ∧ c3Finish.1.map DownloadTask.status = some DownloadStatus.completed
    ∧ c3Finish.1.map (fun t => t.progress.status) = some DownloadStatus.completed :=
  ⟨rfl, rfl, rfl, rfl, rfl⟩

/-- Claim C4: for every model id whose Registry record is READY, which is
not resident, and whose loader is below capacity (the only way the call
reaches the weight load: at capacity the eviction deadlocks first), a
`loadModel` whose weight loading fails re-raises the error and leaves the
Registry record with status READY (not ERROR), so a retry needs no
re-download. -/
theorem c4_failed_load_reverts_to_ready (s : ManagerState)
    (model_id device dtype : String) (dlOk : Bool) (dlSize : Nat)
    (r : LocalModelInfo)
    (hr : ModelRegistry.get s.registry model_id = some r)
    (hready : r.status = ModelStatus.ready)
    (hnot : ModelLoader.is_loaded s.loader model_id = false)
    (hcap : s.loader.loaded_models.length < s.loader.max_loaded_models) :
    (ModelManager.load_model s dlOk dlSize false model_id device dtype).1 =
        Outcome.error "failed to load model"
    ∧ (ModelRegistry.get
          (ModelManager.load_model s dlOk dlSize false model_id device dtype).2.registry
          model_id).map LocalModelInfo.status = some ModelStatus.ready := by
  have hfind : ModelLoader.find s.loader model_id = none := by
    unfold ModelLoader.find
    exact find_none_of_any_false _ _ hnot
  have hload : ModelLoader.load s.loader false model_id device dtype =
      (Outcome.error "failed to load model", s.loader) := by
    unfold ModelLoader.load
    rw [hfind, evict_lt _ hcap]
    rfl
  have htail : ModelManager.load_model_tail s false model_id device dtype =
      (Outcome.error "failed to load model",
       { s with
           loader := s.loader
           registry :=
             ModelRegistry.update_status
               (ModelRegistry.update_status s.registry model_id ModelStatus.loading none)
               model_id ModelStatus.ready (some "failed to load model") }) := by
    unfold ModelManager.load_model_tail
    simp only []
    rw [hload]
  have hrun : ModelManager.load_model s dlOk dlSize false model_id device dtype =
      ModelManager.load_model_tail s false model_id device dtype := by
    unfold ModelManager.load_model
    rw [hr]
    simp only [hready, eq_self_iff_true, true_or, if_true]
  rw [hrun, htail]
  refine ⟨rfl, ?_⟩
  have h1 := get_update_status_not_loaded s.registry model_id ModelStatus.loading none
    r hr (by decide)
  exact get_update_status_map_status _ _ _ _ _ h1

/-- Witness for C4: the theorem applied at `c4Start` with model X (loader
empty, capacity two). -/
theorem c4_failed_load_reverts_to_ready_witness :
    (ModelManager.load_model c4Start true 0 false "X" "auto" "auto").1 =
        Outcome.error "failed to load model"
    ∧ (ModelRegistry.get
          (ModelManager.load_model c4Start true 0 false "X" "auto" "auto").2.registry
          "X").map LocalModelInfo.status = some ModelStatus.ready :=
  c4_failed_load_reverts_to_ready c4Start "X" "auto" "auto" true 0
    (readyRecord "X") rfl rfl rfl (by decide)

/-- Claim C5: capacity invariant -- for every sequence of load, unload and
generate calls on a fresh Loader, the number of resident entries after each
completed call never exceeds `max_loaded_models` (every prefix of a
sequence is itself a sequence, so this bounds every intermediate state). -/
theorem c5_capacity_invariant (ops : List LoaderOp) (maxLoaded : Nat) :
    (runLoaderOps (initLoader maxLoaded) ops).loaded_models.length ≤ maxLoaded := by
  have := runLoaderOps_len ops (initLoader maxLoaded) (by simp [initLoader])
  simpa [initLoader] using this

/-- Claim C6 (counterexample): the claim says `evictIfNeeded` handles a
capacity of zero without raising an error, but with `max_loaded_models = 0`
and an empty cache the loop condition `len >= max` holds and
`min(empty dict)` raises ValueError. -/
theorem c6_evict_raises_at_zero_capacity :
    (ModelLoader.evict_if_needed (initLoader 0)).1 =
      Outcome.error "min() arg is an empty sequence" :=
  rfl

/-- Claim C6 (amended): `evictIfNeeded` never completes an eviction.  Below
capacity it returns at once without error (the loop body never runs); at or
over a capacity with a nonempty cache -- whenever an eviction is actually
needed -- it deadlocks at its first `await unload`, which re-acquires the
non-reentrant lock its caller `load` already holds; and at or over capacity
with an empty cache (capacity zero) it raises, because `min` over the empty
dict raises ValueError.  In every case the state is unchanged. -/
theorem c6_evict_if_needed_behavior (s : LoaderState) :
    (s.loaded_models.length < s.max_loaded_models →
        ModelLoader.evict_if_needed s = (Outcome.ok (), s))
    ∧ (s.max_loaded_models ≤ s.loaded_models.length → s.loaded_models ≠ [] →
        ModelLoader.evict_if_needed s = (Outcome.hang, s))
    ∧ (s.max_loaded_models ≤ s.loaded_models.length → s.loaded_models = [] →
        ModelLoader.evict_if_needed s =
          (Outcome.error "min() arg is an empty sequence", s)) :=
  ⟨evict_lt s, evict_hang s, evict_err s⟩

/-- Witness for C6 (amended): the theorem applied at a loader below
capacity, at one over capacity with entries (deadlock), and at capacity
zero with an empty cache (ValueError). -/
theorem c6_evict_if_needed_behavior_witness :
    ModelLoader.evict_if_needed (initLoader 2) = (Outcome.ok (), initLoader 2)
    ∧ ModelLoader.evict_if_needed c6Overfull = (Outcome.hang, c6Overfull)
    ∧ ModelLoader.evict_if_needed (initLoader 0) =
        (Outcome.error "min() arg is an empty sequence", initLoader 0) :=
  ⟨(c6_evict_if_needed_behavior (initLoader 2)).1 (by decide),
   (c6_evict_if_needed_behavior c6Overfull).2.1 (by decide) (by decide),
   (c6_evict_if_needed_behavior (initLoader 0)).2.2 (by decide) rfl⟩

/-- Claim C7 (code bug): with capacity 2 and A, B loaded in order, loading C
selects A as the LRU victim (oldest `last_used`, and Python `min` takes the
first minimal element in insertion order) -- but the call then deadlocks
re-acquiring the loader lock inside the eviction, so it never completes:
nothing is evicted, C never becomes resident, and A and B stay loaded,
contradicting the claimed completed eviction of exactly A. -/
theorem c7_load_at_capacity_hangs_after_selecting_lru :
    (ModelLoader.load c7AB true "C" "auto" "auto").1 = Outcome.hang
    ∧ (ModelLoader.load c7AB true "C" "auto" "auto").2 = c7AB
    ∧ (lruMin c7AB.loaded_models).map LoadedModel.model_id = some "A"
    ∧ c7AB.loaded_models.map LoadedModel.model_id = ["A", "B"] :=
  ⟨rfl, rfl, rfl, rfl⟩

/-- Claim C8: idempotent download.  When the Registry record for an id is
READY, `downloadModel` without force returns the existing record with the
whole manager state (hence the transfer counter) unchanged; consequently
two consecutive `downloadModel` calls starting from an unregistered id
perform exactly one transfer. -/
theorem c8_idempotent_download (s : ManagerState) (model_id revision : String)
    (quantization : Option String) (dlOk : Bool) (dlSize : Nat) (r : LocalModelInfo)
    (hr : ModelRegistry.get s.registry model_id = some r)
    (hready : r.status = ModelStatus.ready) :
    ModelManager.download_model s dlOk dlSize model_id revision quantization false =
        (Except.ok r, s)
    ∧ (ModelManager.download_model s dlOk dlSize model_id revision quantization
        false).2.transfers = s.transfers
    ∧ ∀ s0 : ManagerState, ModelRegistry.get s0.registry model_id = none →
        (ModelManager.download_model
            (ModelManager.download_model s0 true dlSize model_id revision quantization
              false).2
            true dlSize model_id revision quantization false).2.transfers
          = s0.transfers + 1 := by
  have hmain := download_model_ready_short_circuit s model_id revision quantization
    dlOk dlSize r hr hready
  refine ⟨hmain, by rw [hmain], ?_⟩
  intro s0 h0
  have hfirst : ModelManager.download_model s0 true dlSize model_id revision
      quantization false =
      ModelManager.download_run s0 true dlSize model_id revision quantization := by
    unfold ModelManager.download_model
    rw [h0]
  obtain ⟨info, h1, h2, h3, h4⟩ := download_run_ok s0 dlSize model_id revision quantization
  rw [hfirst]
  have hsecond := download_model_ready_short_circuit
    (ModelManager.download_run s0 true dlSize model_id revision quantization).2
    model_id revision quantization true dlSize info h3 h2
  rw [hsecond]
  exact h4

/-- Witness for C8: the theorem applied at `c8Start` with model M. -/
theorem c8_idempotent_download_witness :
    ModelManager.download_model c8Start true 42 "M" "main" none false =
        (Except.ok (readyRecord "M"), c8Start)
    ∧ (ModelManager.download_model c8Start true 42 "M" "main" none false).2.transfers
        = c8Start.transfers
    ∧ ∀ s0 : ManagerState, ModelRegistry.get s0.registry "M" = none →
        (ModelManager.download_model
            (ModelManager.download_model s0 true 42 "M" "main" none false).2
            true 42 "M" "main" none false).2.transfers = s0.transfers + 1 :=
  c8_idempotent_download c8Start "M" "main" none true 42 (readyRecord "M") rfl rfl

/-- Claim C9: registry persistence round-trip.  For every registry state
whose durable write succeeds, saving the snapshot and loading it back
reproduces exactly the same records with identical field values. -/
theorem c9_registry_round_trip (s : RegistryState) (h : s.persist_ok = true) :
    ModelRegistry.load_registry (ModelRegistry.save_registry s).disk = s.models := by
  unfold ModelRegistry.save_registry ModelRegistry.diskWrite
  simp only [h, if_true]
  unfold ModelRegistry.load_registry ModelRegistry.registrySnapshot
  simp [parseModels_map]

/-- Witness for C9: the theorem applied at a registry with two records. -/
theorem c9_registry_round_trip_witness :
    ModelRegistry.load_registry (ModelRegistry.save_registry c9Sample).disk =
      c9Sample.models :=
  c9_registry_round_trip c9Sample rfl

/-- Claim C10: `deleteModel` reports only the Registry removal.  For files on
disk without a Registry record, `deleteModel(id, deleteFiles := true)`
deletes the files yet returns false; and whenever a Registry record exists
it returns true, files or no files. -/
theorem c10_delete_model_result_reflects_registry_only (model_id : String) :
    (∀ s : ManagerState, model_id ∈ s.files →
        ModelRegistry.get s.registry model_id = none →
        (ModelManager.delete_model s true model_id true).1 = Except.ok false
        ∧ model_id ∉ (ModelManager.delete_model s true model_id true).2.files)
    ∧ (∀ s : ManagerState, ∀ r : LocalModelInfo,
        ModelRegistry.get s.registry model_id = some r →
        (ModelManager.delete_model s true model_id true).1 = Except.ok true) := by
  constructor
  · intro s hc hget
    have hmem := mapMem_false_of_get_none s.registry.models model_id hget
    unfold ModelManager.delete_model ModelDownloader.delete_model ModelRegistry.remove
    cases hload : ModelLoader.is_loaded s.loader model_id <;>
      simp [hc, hmem, List.mem_filter]
  · intro s r hget
    have hmem := mapMem_true_of_get_some s.registry.models model_id r hget
    unfold ModelManager.delete_model ModelDownloader.delete_model ModelRegistry.remove
    cases hload : ModelLoader.is_loaded s.loader model_id <;>
      by_cases hc : model_id ∈ s.files <;>
        simp [hc, hmem]

/-- Witness for C10: applied at a manager with files but no record (F) and
at one with a record but no files (G). -/
theorem c10_delete_model_result_reflects_registry_only_witness :
    ((ModelManager.delete_model c10NoRecord true "F" true).1 = Except.ok false
      ∧ "F" ∉ (ModelManager.delete_model c10NoRecord true "F" true).2.files)
    ∧ (ModelManager.delete_model c10WithRecord true "G" true).1 = Except.ok true :=
  ⟨(c10_delete_model_result_reflects_registry_only "F").1 c10NoRecord
     (by decide) rfl,
   (c10_delete_model_result_reflects_registry_only "G").2 c10WithRecord
     (readyRecord "G") rfl⟩
end ModelManagerSpec
